import Mathlib

/-!
Shallow embedding of the norish recipe content-extraction pipeline:
the provider registry and capability prober (src/unnamed/part_004),
the AI extraction engines (src/unnamed/part_005 and
src/server/ai/image-recipe-parser.ts) and the extraction orchestrator
(src/server/parser/index.ts).  External I/O (HTTP fetch, the AI
provider call, the headless-browser page fetch) is represented by
explicit outcome oracles threaded through environment records, and
each embedded function additionally returns a trace recording which
collaborators it invoked, mirroring the call sites of the source.
-/

/-- Measurement system tag carried by every canonical ingredient/step entry. -/
inductive MSystem where
  | metric
  | us
deriving DecidableEq

/-- One entry of the unified ingredient list of a `FullRecipeInsertDTO`
(fields used by the pipeline: name, amount, unit, system tag, order index). -/
structure IngredientEntry where
  ingredientId : Option Nat
  ingredientName : String
  amount : Option Rat
  unit : Option String
  systemUsed : MSystem
  order : Nat
deriving DecidableEq

/-- One entry of the unified step list of a `FullRecipeInsertDTO`. -/
structure StepEntry where
  step : String
  order : Nat
  systemUsed : MSystem
deriving DecidableEq

/-- The slice of `FullRecipeInsertDTO` the extraction pipeline manipulates. -/
structure RecipeDTO where
  name : String
  url : Option String
  recipeIngredients : List IngredientEntry
  steps : List StepEntry
deriving DecidableEq

/-! ## String helpers (JS `toLowerCase` / `includes` / truthiness) -/

/-- JS `String.prototype.toLowerCase`, modelled characterwise. -/
def lowerStr (s : String) : String :=
  ⟨s.data.map Char.toLower⟩

/-- Does `hay` contain `needle` as a contiguous sublist (JS `includes`)? -/
def includesL (needle : List Char) : List Char → Bool
  | [] => needle.isEmpty
  | c :: rest => needle.isPrefixOf (c :: rest) || includesL needle rest

/-- JS `hay.includes(needle)` on strings. -/
def strIncludes (hay needle : String) : Bool :=
  includesL needle.data hay.data

/-- JS truthiness of a possibly-undefined string (`undefined` and `""` are falsy). -/
def optTruthy : Option String → Bool
  | none => false
  | some s => !s.isEmpty

/-- JS `visionModel || model`: fall back to `model` when the vision name is
undefined or the empty string. -/
def orModel (visionModel : Option String) (model : String) : String :=
  match visionModel with
  | none => model
  | some s => if s.isEmpty then model else s

/-! ## Provider registry (src/unnamed/part_004, `createModelsFromConfig`) -/

/-- The closed provider enumeration `AIConfig["provider"]`. -/
inductive Provider where
  | openai
  | ollama
  | lmStudio
  | genericOpenai
  | perplexity
deriving DecidableEq

/-- The slice of `AIConfig` consumed by `createModelsFromConfig`. -/
structure ProviderConfig where
  provider : Provider
  model : String
  visionModel : Option String
  endpoint : Option String
  apiKey : Option String
deriving DecidableEq

/-- An opaque model handle: which SDK constructor was used, with which
base URL / auth and which model name (the data `createModelsFromConfig`
binds into the closure it returns). -/
inductive ModelHandle where
  | openai (modelName : String)
  | ollama (baseURL : String) (modelName : String)
  | compatible (name : String) (baseURL : String) (hasAuth : Bool) (modelName : String)
  | perplexity (modelName : String)
deriving DecidableEq

/-- The `ModelConfig` record returned by the registry. -/
structure ModelConfig where
  model : ModelHandle
  visionModel : ModelHandle
  providerName : String
deriving DecidableEq

/-- Strip all trailing `'/'` characters (the source's `replace(/\/+$/, "")`). -/
def stripSlashesL (l : List Char) : List Char :=
  (l.reverse.dropWhile (fun c => c == '/')).reverse

/-- JS `endsWith("/v1")` on a character list. -/
def endsWithV1 (l : List Char) : Bool :=
  match l.reverse with
  | '1' :: 'v' :: '/' :: _ => true
  | _ => false

/-- The local-endpoint normalization inlined in the `lm-studio` /
`generic-openai` branch of `createModelsFromConfig`: strip trailing
slashes, then append `"/v1"` unless the result already ends with it. -/
def normalizeEndpointL (l : List Char) : List Char :=
  let t := stripSlashesL l
  if endsWithV1 t then t else t ++ ['/', 'v', '1']

/-- String-level wrapper of `normalizeEndpointL`. -/
def normalizeLocalEndpoint (s : String) : String :=
  ⟨normalizeEndpointL s.data⟩

/-- `createModelsFromConfig` (src/unnamed/part_004 lines 43-116).  The
`default: throw` arm of the source switch is unreachable here because
`Provider` is the closed enumeration of configured providers. -/
def createModelsFromConfig (config : ProviderConfig) : Except String ModelConfig :=
  match config.provider with
  | .openai =>
    if !optTruthy config.apiKey then
      .error "API Key is required for OpenAI provider"
    else
      .ok { model := .openai config.model,
            visionModel := .openai (orModel config.visionModel config.model),
            providerName := "OpenAI" }
  | .ollama =>
    if !optTruthy config.endpoint then
      .error "Endpoint is required for Ollama provider"
    else
      let e := config.endpoint.getD ""
      .ok { model := .ollama e config.model,
            visionModel := .ollama e (orModel config.visionModel config.model),
            providerName := "Ollama" }
  | .lmStudio =>
    if !optTruthy config.endpoint then
      .error "Endpoint is required for this provider"
    else
      let normalized := normalizeLocalEndpoint (config.endpoint.getD "")
      .ok { model := .compatible "lmstudio" normalized (optTruthy config.apiKey) config.model,
            visionModel :=
              .compatible "lmstudio" normalized (optTruthy config.apiKey)
                (orModel config.visionModel config.model),
            providerName := "LM Studio" }
  | .genericOpenai =>
    if !optTruthy config.endpoint then
      .error "Endpoint is required for this provider"
    else
      let normalized := normalizeLocalEndpoint (config.endpoint.getD "")
      .ok { model := .compatible "generic-openai" normalized (optTruthy config.apiKey) config.model,
            visionModel :=
              .compatible "generic-openai" normalized (optTruthy config.apiKey)
                (orModel config.visionModel config.model),
            providerName := "Generic OpenAI" }
  | .perplexity =>
    if !optTruthy config.apiKey then
      .error "API Key is required for Perplexity provider"
    else
      .ok { model := .perplexity config.model,
            visionModel := .perplexity (orModel config.visionModel config.model),
            providerName := "Perplexity" }

/-- Which requirement the selected provider kind imposes: cloud providers
need a credential, local providers need an endpoint (the guard of each
branch of `createModelsFromConfig`). -/
def requiredConfigMissing (config : ProviderConfig) : Bool :=
  match config.provider with
  | .openai => !optTruthy config.apiKey
  | .perplexity => !optTruthy config.apiKey
  | .ollama => !optTruthy config.endpoint
  | .lmStudio => !optTruthy config.endpoint
  | .genericOpenai => !optTruthy config.endpoint

/-! ## Capability prober (src/unnamed/part_004, `getModelCapabilities`) -/

/-- `ModelCapabilities` as in the source interface. -/
structure ModelCapabilities where
  supportsTemperature : Bool
  supportsMaxTokens : Bool
  supportsVision : Bool
  supportsStructuredOutput : Bool
  maxTemperature : Nat
deriving DecidableEq

/-- The static `defaults` literal at the top of `getModelCapabilities`. -/
def capabilityDefaults : ModelCapabilities :=
  { supportsTemperature := true
    supportsMaxTokens := true
    supportsVision := false
    supportsStructuredOutput := true
    maxTemperature := 2 }

/-- The `data.details` object of an Ollama `/api/show` response
(`families` may be absent). -/
structure OllamaShowDetails where
  families : Option (List String)
deriving DecidableEq

/-- Outcome oracle for the bounded-timeout introspection HTTP call:
`threw` covers network errors, the 5s timeout abort and a body that
fails to parse as JSON; `status ok details` covers a completed
response with `response.ok = ok` and (when ok) its parsed `details`. -/
inductive FetchOutcome where
  | threw
  | status (ok : Bool) (details : Option OllamaShowDetails)
deriving DecidableEq

/-- `queryOllamaCapabilities` (src/unnamed/part_004 lines 196-240). -/
def queryOllamaCapabilities (endpoint model : String) (outcome : FetchOutcome)
    (defaults : ModelCapabilities) : ModelCapabilities :=
  let _baseUrl := stripSlashesL endpoint.data
  match outcome with
  | .threw => { defaults with supportsMaxTokens := false }
  | .status false _ => { defaults with supportsMaxTokens := false }
  | .status true details =>
    let families := (details.getD { families := none }).families.getD []
    let hasVision :=
      families.contains "clip" ||
      strIncludes (lowerStr model) "llava" ||
      strIncludes (lowerStr model) "vision"
    { supportsTemperature := true
      supportsMaxTokens := false
      supportsVision := hasVision
      supportsStructuredOutput := true
      maxTemperature := 2 }

/-- `getModelCapabilities` (src/unnamed/part_004 lines 138-191).  The
outer `try`/`catch` of the source cannot fire here: the only fallible
step, the Ollama introspection call, already catches internally. -/
def getModelCapabilities (provider : Provider) (endpoint model : Option String)
    (outcome : FetchOutcome) : ModelCapabilities :=
  let defaults := capabilityDefaults
  match provider with
  | .openai =>
    { defaults with supportsVision := true, supportsStructuredOutput := true }
  | .ollama =>
    if optTruthy endpoint && optTruthy model then
      queryOllamaCapabilities (endpoint.getD "") (model.getD "") outcome defaults
    else
      { defaults with supportsMaxTokens := false, supportsVision := false }
  | .lmStudio =>
    { defaults with supportsVision := false, supportsStructuredOutput := true }
  | .genericOpenai =>
    { defaults with supportsVision := false, supportsStructuredOutput := false }
  | .perplexity => defaults

/-! ## Recipe-likelihood heuristic (src/server/parser/index.ts, `isPageLikelyRecipe`) -/

/-- The two indicator lists the configuration collaborator supplies to
`isPageLikelyRecipe`. -/
structure IndicatorConfig where
  schemaIndicators : List String
  contentIndicators : List String
deriving DecidableEq

/-- Case-insensitive substring occurrence of an indicator phrase in the
page HTML (`lowered.includes(i.toLowerCase())`). -/
def occursIn (html indicator : String) : Bool :=
  strIncludes (lowerStr html) (lowerStr indicator)

/-- `isPageLikelyRecipe` (src/server/parser/index.ts lines 119-129). -/
def isPageLikelyRecipe (html : String) (indicators : IndicatorConfig) : Bool :=
  let lowered := lowerStr html
  let hasSchema := indicators.schemaIndicators.any (fun i => strIncludes lowered (lowerStr i))
  let hasContentHints :=
    decide (2 ≤ (indicators.contentIndicators.filter
      (fun i => strIncludes lowered (lowerStr i))).length)
  hasSchema || hasContentHints

/-! ## AI result type (src/server/ai/types/result, as used from src) -/

/-- Error codes of the AI result contract.  The four named codes occur
literally in src; transport codes produced by the provider-error
classifier `mapErrorToCode` (not under src/) are carried by `other`. -/
inductive AICode where
  | AI_DISABLED
  | INVALID_INPUT
  | EMPTY_RESPONSE
  | VALIDATION_ERROR
  | other (code : String)
deriving DecidableEq

/-- Token usage accounting attached to a successful AI result. -/
structure Usage where
  inputTokens : Nat
  outputTokens : Nat
  totalTokens : Nat
deriving DecidableEq

/-- The tagged `AIResult` union: `{success: true, data, usage}` or
`{success: false, error, code}`. -/
inductive AIResult (α : Type) where
  | success (data : α) (usage : Usage)
  | failure (error : String) (code : AICode)
deriving DecidableEq

/-- Boolean success test (`aiResult.success`). -/
def AIResult.isSuccess : AIResult α → Bool
  | .success _ _ => true
  | .failure _ _ => false

/-! ## AI extraction engines (src/unnamed/part_005, src/server/ai/image-recipe-parser.ts) -/

/-- Dual measurement-system string lists, as in the structured-output schema
(`recipeIngredient: {metric, us}`, `recipeInstructions: {metric, us}`). -/
structure DualLists where
  metric : List String
  us : List String
deriving DecidableEq

/-- The raw schema-constrained object `result.output` may carry.  Fields are
optional because the engine code tests each with optional chaining; the
field set follows the structured-output schema of the spec (name,
recipeIngredient, recipeInstructions, image, keywords) plus description. -/
structure RawRecipe where
  name : Option String
  description : Option String
  recipeIngredient : Option DualLists
  recipeInstructions : Option DualLists
  image : Option (List String)
  keywords : Option (List String)
deriving DecidableEq

/-- `Object.keys(jsonLd).length` for the raw response object. -/
def keyCount (r : RawRecipe) : Nat :=
  (if r.name.isSome then 1 else 0) +
  (if r.description.isSome then 1 else 0) +
  (if r.recipeIngredient.isSome then 1 else 0) +
  (if r.recipeInstructions.isSome then 1 else 0) +
  (if r.image.isSome then 1 else 0) +
  (if r.keywords.isSome then 1 else 0)

/-- `jsonLd.recipeIngredient?.metric`, reading an absent object as `[]`. -/
def ingMetric (r : RawRecipe) : List String :=
  (r.recipeIngredient.map (fun d => d.metric)).getD []

/-- `jsonLd.recipeIngredient?.us`, reading an absent object as `[]`. -/
def ingUs (r : RawRecipe) : List String :=
  (r.recipeIngredient.map (fun d => d.us)).getD []

/-- `jsonLd.recipeInstructions?.metric`, reading an absent object as `[]`. -/
def insMetric (r : RawRecipe) : List String :=
  (r.recipeInstructions.map (fun d => d.metric)).getD []

/-- `jsonLd.recipeInstructions?.us`, reading an absent object as `[]`. -/
def insUs (r : RawRecipe) : List String :=
  (r.recipeInstructions.map (fun d => d.us)).getD []

/-- JS truthiness of `jsonLd.name` (absent and `""` are falsy). -/
def nameTruthy (r : RawRecipe) : Bool :=
  match r.name with
  | none => false
  | some s => !s.isEmpty

/-- The required-field completeness gate of both engines: name truthy and
all four ingredient/instruction arrays non-empty. -/
def validRecipe (r : RawRecipe) : Bool :=
  nameTruthy r &&
  !(ingMetric r).isEmpty &&
  !(ingUs r).isEmpty &&
  !(insMetric r).isEmpty &&
  !(insUs r).isEmpty

/-- One record of the external ingredient-parsing collaborator's output
(`{quantity, unitOfMeasureID, description}`). -/
structure ParsedIngredient where
  quantity : Option Rat
  unitOfMeasureID : Option String
  description : String
deriving DecidableEq

/-- Outcome oracle for the schema-constrained `generateText` call:
either it completed with `result.output` and usage accounting, or it
threw and the provider-error classifier mapped the fault to a code and
message (the classifier itself is not under src/). -/
inductive GenOutcome where
  | ok (output : Option RawRecipe) (usage : Usage)
  | threw (code : AICode) (message : String)

/-- Environment of one engine run: the admin AI flag, the outcome of
`getModels()` (which throws when the AI configuration is missing or
disabled), the generation outcome, and the per-string behaviour of the
external ingredient-parsing collaborator. -/
structure EngineEnv where
  aiEnabled : Bool
  modelsResult : Except (String × AICode) Unit
  gen : GenOutcome
  parseIng : String → ParsedIngredient

/-- Which collaborators an engine run invoked: provider-handle
construction (`getModels`) and the provider network call (`generateText`). -/
structure EngineTrace where
  getModelsCalled : Bool
  networkCalled : Bool
deriving DecidableEq

/-- Modelled from the spec: the canonical metric recipe the Recipe
Normalizer produces — each ingredient and each instruction becomes one
entry tagged with system `metric` and a contiguous zero-based order
index, ordering preserved. -/
def normalizedMetricRecipe (name : String) (ingredients instructions : List String) :
    RecipeDTO :=
  { name := name
    url := none
    recipeIngredients :=
      ingredients.enum.map (fun p =>
        { ingredientId := none
          ingredientName := p.2
          amount := none
          unit := none
          systemUsed := .metric
          order := p.1 })
    steps :=
      instructions.enum.map (fun p =>
        { step := p.2
          order := p.1
          systemUsed := .metric }) }

/-- Modelled from the spec: the Recipe Normalizer entry point
`normalizeRecipeFromJson` (src/server/parser/normalize.ts, not included
under src/).  Per the spec it maps the metric variant into the canonical
representation. -/
def normalizeRecipeFromJson (name : String) (ingredients instructions : List String) :
    Option RecipeDTO :=
  some (normalizedMetricRecipe name ingredients instructions)

/-- Modelled from the spec: the external ingredient-parsing collaborator
`parseIngredientWithDefaults` (not under src/) parses each US ingredient
string into one `{quantity, unitId, description}` record. -/
def parseIngredientWithDefaults (strings : List String) (p : String → ParsedIngredient) :
    List ParsedIngredient :=
  strings.map p

/-- The combine step of both engines: parse the US ingredient strings,
renumber them zero-based, wrap the US instruction strings into step
records numbered `i + 1`, and append both behind the normalized metric
entries (src/unnamed/part_005 lines 136-161 and
src/server/ai/image-recipe-parser.ts lines 164-189). -/
def combineSystems (normalized : RecipeDTO) (url : Option String)
    (usIngredientStrings usStepStrings : List String)
    (p : String → ParsedIngredient) : RecipeDTO :=
  let usIngredients := parseIngredientWithDefaults usIngredientStrings p
  let usSteps := usStepStrings.enum.map (fun q =>
    { step := q.2, order := q.1 + 1, systemUsed := .us : StepEntry })
  { normalized with
    url := url
    recipeIngredients :=
      normalized.recipeIngredients ++
        usIngredients.enum.map (fun q =>
          { ingredientId := none
            ingredientName := q.2.description
            amount := q.2.quantity
            unit := q.2.unitOfMeasureID
            systemUsed := .us
            order := q.1 : IngredientEntry })
    steps := normalized.steps ++ usSteps }

/-- The shared post-guard algorithm of both engine entry points
(src/unnamed/part_005 lines 67-188 and
src/server/ai/image-recipe-parser.ts lines 95-218): resolve models,
generate, check for an empty payload, validate required fields,
normalize the metric variant, parse and renumber the US variant, and
concatenate metric entries before US entries. -/
def runAIExtraction (env : EngineEnv) (url : Option String) :
    AIResult RecipeDTO × EngineTrace :=
  match env.modelsResult with
  | .error (msg, code) => (.failure msg code, ⟨true, false⟩)
  | .ok _ =>
    match env.gen with
    | .threw code msg => (.failure msg code, ⟨true, true⟩)
    | .ok output usage =>
      match output with
      | none => (.failure "AI returned empty response" .EMPTY_RESPONSE, ⟨true, true⟩)
      | some jsonLd =>
        if keyCount jsonLd == 0 then
          (.failure "AI returned empty response" .EMPTY_RESPONSE, ⟨true, true⟩)
        else if !validRecipe jsonLd then
          (.failure "Recipe extraction failed - missing required fields" .VALIDATION_ERROR,
            ⟨true, true⟩)
        else
          match normalizeRecipeFromJson ((jsonLd.name).getD "") (ingMetric jsonLd)
              (insMetric jsonLd) with
          | none => (.failure "Failed to normalize recipe data" .VALIDATION_ERROR, ⟨true, true⟩)
          | some normalized =>
            (.success
              (combineSystems normalized url (ingUs jsonLd) (insUs jsonLd) env.parseIng)
              usage, ⟨true, true⟩)

/-- `extractRecipeWithAI` (src/unnamed/part_005 lines 54-188), the
text/HTML entry point.  The html and allergies inputs only feed the
prompt, which does not affect the result shape modelled here. -/
def extractRecipeWithAI (env : EngineEnv) (_html : String) (url : Option String)
    (_allergies : Option (List String)) : AIResult RecipeDTO × EngineTrace :=
  if !env.aiEnabled then
    (.failure "AI features are disabled" .AI_DISABLED, ⟨false, false⟩)
  else
    runAIExtraction env url

/-- One image file of an image-import request. -/
structure ImageImportFile where
  filename : String
  mimeType : String
  data : String
deriving DecidableEq

/-- `extractRecipeFromImages` (src/server/ai/image-recipe-parser.ts lines
74-218), the image entry point: same guards plus the zero-images check,
and the combined recipe carries no URL. -/
def extractRecipeFromImages (env : EngineEnv) (files : List ImageImportFile)
    (_allergies : Option (List String)) : AIResult RecipeDTO × EngineTrace :=
  if !env.aiEnabled then
    (.failure "AI features are disabled" .AI_DISABLED, ⟨false, false⟩)
  else if files.length == 0 then
    (.failure "No images provided" .INVALID_INPUT, ⟨false, false⟩)
  else
    runAIExtraction env none

/-! ## Extraction orchestrator (src/server/parser/index.ts, `parseRecipeFromUrl`) -/

/-- The orchestrator's return record (`ParseRecipeResult`). -/
structure ParseRecipeResult where
  recipe : RecipeDTO
  usedAI : Bool
deriving DecidableEq

/-- Environment of one orchestrator run: every collaborator the source
awaits, replaced by its outcome.  `jsonLd` / `micro` are the candidate
records the two structured extractors would return for this page
(`null` on parse failure), `ai` is the result `extractRecipeWithAI`
would produce. -/
structure OrchestratorEnv where
  isVideo : Bool
  videoParsingEnabled : Bool
  videoResult : Except String RecipeDTO
  fetchResult : Option String
  indicators : IndicatorConfig
  alwaysUseAI : Bool
  aiEnabled : Bool
  jsonLd : Option RecipeDTO
  micro : Option RecipeDTO
  ai : AIResult RecipeDTO

/-- Which collaborators the orchestrator invoked. -/
structure OrchTrace where
  videoCalled : Bool
  fetchCalled : Bool
  jsonLdCalled : Bool
  microCalled : Bool
  aiCalled : Bool
deriving DecidableEq

/-- The usable-candidate test inlined at both structured-extractor call
sites: the candidate is non-null and its unified `recipeIngredients`
and `steps` arrays are non-empty. -/
def usableCandidate (r : RecipeDTO) : Bool :=
  !r.recipeIngredients.isEmpty && !r.steps.isEmpty

/-- `containsStepsAndIngredients` / `containsMicroStepsAndIngredients`
(src/server/parser/index.ts lines 77-83 and 91-97), including the
non-null test. -/
def containsStepsAndIngredients (r : Option RecipeDTO) : Bool :=
  match r with
  | none => false
  | some d => usableCandidate d

/-- The terminal stage of the standard flow (src/server/parser/index.ts
lines 100-116): attempt AI only when it is enabled, otherwise (or on AI
failure) fail with the terminal error. -/
def aiFallbackStage (env : OrchestratorEnv) :
    Except String ParseRecipeResult × OrchTrace :=
  if env.aiEnabled then
    match env.ai with
    | .success d _ => (.ok ⟨d, true⟩, ⟨false, true, true, true, true⟩)
    | .failure _ _ => (.error "Cannot parse recipe.", ⟨false, true, true, true, true⟩)
  else
    (.error "Cannot parse recipe.", ⟨false, true, true, true, false⟩)

/-- The microdata stage of the standard flow (src/server/parser/index.ts
lines 90-98). -/
def microStage (env : OrchestratorEnv) :
    Except String ParseRecipeResult × OrchTrace :=
  match env.micro with
  | some d =>
    if usableCandidate d then (.ok ⟨d, false⟩, ⟨false, true, true, true, false⟩)
    else aiFallbackStage env
  | none => aiFallbackStage env

/-- The JSON-LD stage of the standard flow (src/server/parser/index.ts
lines 76-88). -/
def jsonLdStage (env : OrchestratorEnv) :
    Except String ParseRecipeResult × OrchTrace :=
  match env.jsonLd with
  | some d =>
    if usableCandidate d then (.ok ⟨d, false⟩, ⟨false, true, true, false, false⟩)
    else microStage env
  | none => microStage env

/-- `parseRecipeFromUrl` (src/server/parser/index.ts lines 21-117):
video classification, page fetch, recipe-likelihood gate, the AI-only
override, then the standard JSON-LD → microdata → AI fallback chain. -/
def parseRecipeFromUrl (env : OrchestratorEnv) (_url : String) (forceAI : Option Bool) :
    Except String ParseRecipeResult × OrchTrace :=
  if env.isVideo then
    if !env.videoParsingEnabled then
      (.error "Video recipe parsing is not enabled.", ⟨false, false, false, false, false⟩)
    else
      match env.videoResult with
      | .ok recipe => (.ok ⟨recipe, true⟩, ⟨true, false, false, false, false⟩)
      | .error e => (.error e, ⟨true, false, false, false, false⟩)
  else
    match env.fetchResult with
    | none => (.error "Cannot fetch recipe page.", ⟨false, true, false, false, false⟩)
    | some html =>
      if html.isEmpty then
        (.error "Cannot fetch recipe page.", ⟨false, true, false, false, false⟩)
      else if !isPageLikelyRecipe html env.indicators then
        (.error "Page does not appear to contain a recipe.", ⟨false, true, false, false, false⟩)
      else
        let useAIOnly := forceAI.getD env.alwaysUseAI
        if useAIOnly then
          if !env.aiEnabled then
            (.error "AI-only import requested but AI is not enabled.",
              ⟨false, true, false, false, false⟩)
          else
            match env.ai with
            | .success d _ => (.ok ⟨d, true⟩, ⟨false, true, false, false, true⟩)
            | .failure e _ =>
              (.error ("AI extraction failed: " ++ e), ⟨false, true, false, false, true⟩)
        else
          jsonLdStage env

/-! ## Specification predicates and concrete environments -/

/-- The concatenation/ordering contract of the unified lists built by the
AI engines' combine step, relative to a raw dual-system payload: lengths
add, metric entries precede US entries, metric entries and US
ingredients are numbered zero-based, US steps are numbered from 1. -/
def dualConcatSpec (raw : RawRecipe) (r : RecipeDTO) : Prop :=
  r.recipeIngredients.length = (ingMetric raw).length + (ingUs raw).length ∧
  r.steps.length = (insMetric raw).length + (insUs raw).length ∧
  r.recipeIngredients.map (fun e => e.systemUsed) =
    List.replicate (ingMetric raw).length .metric ++
      List.replicate (ingUs raw).length .us ∧
  r.steps.map (fun e => e.systemUsed) =
    List.replicate (insMetric raw).length .metric ++
      List.replicate (insUs raw).length .us ∧
  r.recipeIngredients.map (fun e => e.order) =
    List.range (ingMetric raw).length ++ List.range (ingUs raw).length ∧
  r.steps.map (fun e => e.order) =
    List.range (insMetric raw).length ++
      (List.range (insUs raw).length).map (fun i => i + 1)

/-- A structured-extractor candidate holding only metric-system data:
non-empty unified lists, but nothing tagged `us`. -/
def recipeMetricOnly : RecipeDTO :=
  { name := "Vegetable Soup"
    url := none
    recipeIngredients :=
      [{ ingredientId := none, ingredientName := "1 l water", amount := none,
         unit := none, systemUsed := .metric, order := 0 }]
    steps := [{ step := "Boil the water.", order := 0, systemUsed := .metric }] }

/-- Orchestrator environment in which the JSON-LD extractor yields the
metric-only candidate above on a recipe-likely page. -/
def envC1 : OrchestratorEnv :=
  { isVideo := false
    videoParsingEnabled := false
    videoResult := .error "unused"
    fetchResult := some "a ld+json page"
    indicators := { schemaIndicators := ["ld+json"],
                    contentIndicators := ["ingredient", "instruction"] }
    alwaysUseAI := false
    aiEnabled := true
    jsonLd := some recipeMetricOnly
    micro := none
    ai := .failure "unused" (.other "UNKNOWN") }

/-- A complete dual-system AI payload with one entry per list. -/
def rawC2 : RawRecipe :=
  { name := some "Cake"
    description := none
    recipeIngredient := some { metric := ["100 g flour"], us := ["1 cup flour"] }
    recipeInstructions := some { metric := ["Mix."], us := ["Bake."] }
    image := none
    keywords := none }

/-- Engine environment that returns `rawC2` from the provider. -/
def envC2 : EngineEnv :=
  { aiEnabled := true
    modelsResult := .ok ()
    gen := .ok (some rawC2) { inputTokens := 0, outputTokens := 0, totalTokens := 0 }
    parseIng := fun s => { quantity := none, unitOfMeasureID := none, description := s } }

/-- The text-engine run on `envC2`. -/
def c2Result : AIResult RecipeDTO × EngineTrace :=
  extractRecipeWithAI envC2 "" (some "http://example.com/cake") none

/-- The step list of the successful `c2Result`. -/
def c2Steps : List StepEntry :=
  match c2Result.1 with
  | .success r _ => r.steps
  | .failure _ _ => []

/-- The order indices of the US-system steps of `c2Result`. -/
def c2UsStepOrders : List Nat :=
  (c2Steps.filter (fun s => s.systemUsed == MSystem.us)).map (fun s => s.order)

/-- Orchestrator environment with no usable structured data, AI enabled,
and a successful AI extraction. -/
def envC3 : OrchestratorEnv :=
  { isVideo := false
    videoParsingEnabled := false
    videoResult := .error "unused"
    fetchResult := some "a ld+json page"
    indicators := { schemaIndicators := ["ld+json"],
                    contentIndicators := ["ingredient", "instruction"] }
    alwaysUseAI := false
    aiEnabled := true
    jsonLd := none
    micro := none
    ai := .success recipeMetricOnly { inputTokens := 1, outputTokens := 2, totalTokens := 3 } }

/-- Orchestrator environment with AI-only mode forced and AI disabled. -/
def envC4 : OrchestratorEnv :=
  { isVideo := false
    videoParsingEnabled := false
    videoResult := .error "unused"
    fetchResult := some "a ld+json page"
    indicators := { schemaIndicators := ["ld+json"],
                    contentIndicators := ["ingredient", "instruction"] }
    alwaysUseAI := true
    aiEnabled := false
    jsonLd := some recipeMetricOnly
    micro := some recipeMetricOnly
    ai := .failure "unused" (.other "UNKNOWN") }

/-- Engine environment with the admin AI flag off. -/
def envC5 : EngineEnv :=
  { aiEnabled := false
    modelsResult := .ok ()
    gen := .ok none { inputTokens := 0, outputTokens := 0, totalTokens := 0 }
    parseIng := fun s => { quantity := none, unitOfMeasureID := none, description := s } }

/-- A payload with a name but an empty US ingredient array. -/
def rawC6 : RawRecipe :=
  { name := some "Cake"
    description := none
    recipeIngredient := some { metric := ["100 g flour"], us := [] }
    recipeInstructions := some { metric := ["Mix."], us := ["Bake."] }
    image := none
    keywords := none }

/-- Engine environment that returns the partially-filled `rawC6`. -/
def envC6 : EngineEnv :=
  { aiEnabled := true
    modelsResult := .ok ()
    gen := .ok (some rawC6) { inputTokens := 0, outputTokens := 0, totalTokens := 0 }
    parseIng := fun s => { quantity := none, unitOfMeasureID := none, description := s } }

/-- Orchestrator environment whose page contains no indicator phrase. -/
def envC7 : OrchestratorEnv :=
  { isVideo := false
    videoParsingEnabled := false
    videoResult := .error "unused"
    fetchResult := some "plain article text"
    indicators := { schemaIndicators := ["ld+json"],
                    contentIndicators := ["ingredient", "instruction"] }
    alwaysUseAI := false
    aiEnabled := true
    jsonLd := some recipeMetricOnly
    micro := some recipeMetricOnly
    ai := .failure "unused" (.other "UNKNOWN") }

/-- A sample image file for image-engine witnesses. -/
def sampleImageFile : ImageImportFile :=
  { filename := "page1.jpg", mimeType := "image/jpeg", data := "base64data" }

/-! ## Helper lemmas -/

lemma stripSlashesL_idem (l : List Char) :
    stripSlashesL (stripSlashesL l) = stripSlashesL l := by
  simp [stripSlashesL, List.dropWhile_idempotent]

lemma stripSlashesL_append_v1 (t : List Char) :
    stripSlashesL (t ++ ['/', 'v', '1']) = t ++ ['/', 'v', '1'] := by
  simp [stripSlashesL, List.reverse_append, List.dropWhile]

lemma endsWithV1_append_v1 (t : List Char) : endsWithV1 (t ++ ['/', 'v', '1']) = true := by
  simp [endsWithV1, List.reverse_append]

lemma normalizeEndpointL_idem (l : List Char) :
    normalizeEndpointL (normalizeEndpointL l) = normalizeEndpointL l := by
  unfold normalizeEndpointL
  by_cases h : endsWithV1 (stripSlashesL l) = true
  · simp [h, stripSlashesL_idem]
  · simp only [Bool.not_eq_true] at h
    simp [h, stripSlashesL_append_v1, endsWithV1_append_v1]

lemma validRecipe_eq_false_iff (r : RawRecipe) :
    validRecipe r = false ↔
      (nameTruthy r = false ∨ ingMetric r = [] ∨ ingUs r = [] ∨
        insMetric r = [] ∨ insUs r = []) := by
  rw [← Bool.not_eq_true]
  simp [validRecipe, List.isEmpty_iff, not_and_or]
  cases hnt : nameTruthy r <;> simp
  tauto

lemma keyCount_ne_zero_of_valid (r : RawRecipe) (h : validRecipe r = true) :
    keyCount r ≠ 0 := by
  have hn : r.name.isSome = true := by
    unfold validRecipe nameTruthy at h
    cases hr : r.name with
    | none => rw [hr] at h; simp at h
    | some s => simp
  unfold keyCount
  rw [hn]
  simp

lemma enum_map_eq_range {α : Type} (l : List α) (g : ℕ × α → ℕ)
    (h : ∀ p, g p = p.1) : l.enum.map g = List.range l.length := by
  have hg : g = Prod.fst := funext h
  rw [hg, List.enum_map_fst]

lemma enum_map_eq_range_succ {α : Type} (l : List α) (g : ℕ × α → ℕ)
    (h : ∀ p, g p = p.1 + 1) :
    l.enum.map g = (List.range l.length).map (fun i => i + 1) := by
  have hg : g = (fun i => i + 1) ∘ Prod.fst := funext h
  rw [hg, ← List.map_map, List.enum_map_fst]

lemma enum_map_eq_replicate {α γ : Type} (l : List α) (g : ℕ × α → γ) (c : γ)
    (h : ∀ p, g p = c) : l.enum.map g = List.replicate l.length c := by
  have hg : g = fun _ => c := funext h
  rw [hg, List.map_const', List.enum_length]

lemma combineSystems_dualConcatSpec (raw : RawRecipe) (url : Option String)
    (p : String → ParsedIngredient) :
    dualConcatSpec raw
      (combineSystems
        (normalizedMetricRecipe (raw.name.getD "") (ingMetric raw) (insMetric raw))
        url (ingUs raw) (insUs raw) p) := by
  unfold dualConcatSpec combineSystems normalizedMetricRecipe parseIngredientWithDefaults
  refine ⟨?_, ?_, ?_, ?_, ?_, ?_⟩
  · simp [List.enum_length]
  · simp [List.enum_length]
  · rw [List.map_append, List.map_map, List.map_map]
    refine congrArg₂ (· ++ ·) ?_ ?_
    · exact enum_map_eq_replicate _ _ _ (fun q => rfl)
    · rw [show (ingUs raw).length = (List.map p (ingUs raw)).length by rw [List.length_map]]
      exact enum_map_eq_replicate _ _ _ (fun q => rfl)
  · rw [List.map_append, List.map_map, List.map_map]
    refine congrArg₂ (· ++ ·) ?_ ?_
    · exact enum_map_eq_replicate _ _ _ (fun q => rfl)
    · exact enum_map_eq_replicate _ _ _ (fun q => rfl)
  · rw [List.map_append, List.map_map, List.map_map]
    refine congrArg₂ (· ++ ·) ?_ ?_
    · exact enum_map_eq_range _ _ (fun q => rfl)
    · rw [show (ingUs raw).length = (List.map p (ingUs raw)).length by rw [List.length_map]]
      exact enum_map_eq_range _ _ (fun q => rfl)
  · rw [List.map_append, List.map_map, List.map_map]
    refine congrArg₂ (· ++ ·) ?_ ?_
    · exact enum_map_eq_range _ _ (fun q => rfl)
    · exact enum_map_eq_range_succ _ _ (fun q => rfl)

lemma runAIExtraction_success_spec (env : EngineEnv) (url : Option String)
    (raw : RawRecipe) (usg : Usage)
    (hm : env.modelsResult = .ok ()) (hg : env.gen = .ok (some raw) usg)
    (hv : validRecipe raw = true) :
    runAIExtraction env url =
      (.success
        (combineSystems
          (normalizedMetricRecipe (raw.name.getD "") (ingMetric raw) (insMetric raw))
          url (ingUs raw) (insUs raw) env.parseIng) usg, ⟨true, true⟩) := by
  have hk : (keyCount raw == 0) = false := by
    simp [keyCount_ne_zero_of_valid raw hv]
  simp [runAIExtraction, hm, hg, hk, hv, normalizeRecipeFromJson]

lemma parseRecipeFromUrl_web (env : OrchestratorEnv) (url html : String)
    (forceAI : Option Bool)
    (hv : env.isVideo = false) (hf : env.fetchResult = some html)
    (hne : html.isEmpty = false)
    (hlik : isPageLikelyRecipe html env.indicators = true)
    (hstd : forceAI.getD env.alwaysUseAI = false) :
    parseRecipeFromUrl env url forceAI = jsonLdStage env := by
  simp [parseRecipeFromUrl, hv, hf, hne, hlik, hstd]

lemma microStage_microCalled (env : OrchestratorEnv) :
    (microStage env).2.microCalled = true := by
  unfold microStage aiFallbackStage
  cases env.micro with
  | none =>
    cases hai : env.aiEnabled <;> cases env.ai <;> simp
  | some d =>
    cases hu : usableCandidate d <;> cases hai : env.aiEnabled <;> cases env.ai <;> simp [hu]

lemma two_le_length_filter_iff {α : Type} (p : α → Bool) (l : List α) (hnd : l.Nodup) :
    2 ≤ (l.filter p).length ↔
      ∃ a b, a ∈ l ∧ b ∈ l ∧ a ≠ b ∧ p a = true ∧ p b = true := by
  constructor
  · intro h
    match hfl : l.filter p with
    | [] => rw [hfl] at h; simp at h
    | [a] => rw [hfl] at h; simp at h
    | a :: b :: rest =>
      have ha : a ∈ l.filter p := by rw [hfl]; simp
      have hb : b ∈ l.filter p := by rw [hfl]; simp
      have hnd' : (l.filter p).Nodup := hnd.filter p
      rw [hfl] at hnd'
      have hab : a ≠ b := by
        intro hcontra
        subst hcontra
        exact (List.nodup_cons.1 hnd').1 (by simp)
      exact ⟨a, b, (List.mem_filter.1 ha).1, (List.mem_filter.1 hb).1, hab,
        (List.mem_filter.1 ha).2, (List.mem_filter.1 hb).2⟩
  · rintro ⟨a, b, hal, hbl, hab, hpa, hpb⟩
    have ha : a ∈ l.filter p := List.mem_filter.2 ⟨hal, hpa⟩
    have hb : b ∈ l.filter p := List.mem_filter.2 ⟨hbl, hpb⟩
    match hfl : l.filter p with
    | [] => rw [hfl] at ha; simp at ha
    | [c] =>
      rw [hfl] at ha hb
      simp at ha hb
      exact absurd (ha.trans hb.symm) hab
    | _ :: _ :: _ => simp [hfl]

/-! ## Claim theorems -/

/-- Claim C1 (amended): in the standard flow the orchestrator treats a
structured-extractor candidate as usable exactly when it is non-null and
its unified `recipeIngredients` and `steps` arrays are non-empty,
irrespective of the per-system composition of the entries; a usable
JSON-LD candidate is returned as success with `usedAI = false` without
invoking the microdata extractor or AI, and an unusable or absent
candidate makes the orchestrator proceed to the next strategy. -/
theorem C1_usability_is_unified_nonempty (env : OrchestratorEnv) (url html : String)
    (forceAI : Option Bool)
    (hv : env.isVideo = false) (hf : env.fetchResult = some html)
    (hne : html.isEmpty = false)
    (hlik : isPageLikelyRecipe html env.indicators = true)
    (hstd : forceAI.getD env.alwaysUseAI = false) :
    (∀ d, env.jsonLd = some d →
      (usableCandidate d = (!d.recipeIngredients.isEmpty && !d.steps.isEmpty)) ∧
      (usableCandidate d = true →
        parseRecipeFromUrl env url forceAI =
          (.ok ⟨d, false⟩, ⟨false, true, true, false, false⟩)) ∧
      (usableCandidate d = false →
        (parseRecipeFromUrl env url forceAI).2.microCalled = true)) ∧
    (env.jsonLd = none → (parseRecipeFromUrl env url forceAI).2.microCalled = true) := by
  rw [parseRecipeFromUrl_web env url html forceAI hv hf hne hlik hstd]
  constructor
  · intro d hj
    refine ⟨rfl, ?_, ?_⟩
    · intro hu
      simp [jsonLdStage, hj, hu]
    · intro hu
      rw [show jsonLdStage env = microStage env by simp [jsonLdStage, hj, hu]]
      exact microStage_microCalled env
  · intro hj
    rw [show jsonLdStage env = microStage env by simp [jsonLdStage, hj]]
    exact microStage_microCalled env

/-- Claim C1, counterexample to the frozen claim: a JSON-LD candidate
whose US-system entries are entirely absent (metric-only data) is still
accepted as usable — the orchestrator returns success with
`usedAI = false` and never proceeds to the microdata or AI strategy. -/
theorem C1_counterexample :
    (parseRecipeFromUrl envC1 "https://example.com/soup" none).1 =
      .ok ⟨recipeMetricOnly, false⟩ ∧
    (recipeMetricOnly.recipeIngredients.filter (fun e => e.systemUsed == MSystem.us)) = [] ∧
    (recipeMetricOnly.steps.filter (fun e => e.systemUsed == MSystem.us)) = [] ∧
    (parseRecipeFromUrl envC1 "https://example.com/soup" none).2.microCalled = false ∧
    (parseRecipeFromUrl envC1 "https://example.com/soup" none).2.aiCalled = false :=
  ⟨rfl, rfl, rfl, rfl, rfl⟩

/-- Claim C1, witness: the amended theorem applied to `envC1`. -/
theorem C1_witness :
    parseRecipeFromUrl envC1 "https://example.com/soup" none =
      (.ok ⟨recipeMetricOnly, false⟩, ⟨false, true, true, false, false⟩) :=
  ((C1_usability_is_unified_nonempty envC1 "https://example.com/soup" "a ld+json page" none
      rfl rfl (by decide) (by decide) rfl).1 recipeMetricOnly rfl).2.1 (by decide)

/-- Claim C2 (amended): for every successful AI extraction (text or
image entry point), the unified ingredient and step lists each contain
exactly `len(metric) + len(us)` entries with all metric entries
preceding all US entries; US ingredients and metric entries carry
contiguous zero-based order indices within their system, but US steps
are numbered `i + 1`, i.e. one-based, not zero-based. -/
theorem C2_dual_concat (env : EngineEnv) (html : String) (url : Option String)
    (allergies : Option (List String)) (files : List ImageImportFile)
    (raw : RawRecipe) (usg : Usage)
    (hai : env.aiEnabled = true) (hm : env.modelsResult = .ok ())
    (hg : env.gen = .ok (some raw) usg) (hvr : validRecipe raw = true)
    (hf : files ≠ []) :
    (∃ r, (extractRecipeWithAI env html url allergies).1 = .success r usg ∧
      dualConcatSpec raw r) ∧
    (∃ r, (extractRecipeFromImages env files allergies).1 = .success r usg ∧
      dualConcatSpec raw r) := by
  have hflen : (files.length == 0) = false := by
    simp [List.length_eq_zero]
    exact hf
  have h1 := runAIExtraction_success_spec env url raw usg hm hg hvr
  have h2 := runAIExtraction_success_spec env none raw usg hm hg hvr
  constructor
  · refine ⟨_, ?_, combineSystems_dualConcatSpec raw url env.parseIng⟩
    simp [extractRecipeWithAI, hai, h1]
  · refine ⟨_, ?_, combineSystems_dualConcatSpec raw none env.parseIng⟩
    simp [extractRecipeFromImages, hai, hflen, h2]

/-- Claim C2, counterexample to the frozen claim: on a successful
extraction the single US step carries order index 1, so the US-system
step indices are not contiguous zero-based. -/
theorem C2_counterexample :
    c2Result.1.isSuccess = true ∧
    c2UsStepOrders = [1] ∧
    c2UsStepOrders ≠ List.range c2UsStepOrders.length := by
  decide

/-- Claim C2, witness: the amended theorem applied to `envC2`. -/
theorem C2_witness :
    (∃ r, (extractRecipeWithAI envC2 "" (some "http://example.com/cake") none).1 =
        .success r { inputTokens := 0, outputTokens := 0, totalTokens := 0 } ∧
      dualConcatSpec rawC2 r) ∧
    (∃ r, (extractRecipeFromImages envC2 [sampleImageFile] none).1 =
        .success r { inputTokens := 0, outputTokens := 0, totalTokens := 0 } ∧
      dualConcatSpec rawC2 r) :=
  C2_dual_concat envC2 "" (some "http://example.com/cake") none [sampleImageFile] rawC2
    { inputTokens := 0, outputTokens := 0, totalTokens := 0 } rfl rfl rfl (by decide)
    (by decide)

/-- Claim C3: in the standard (non-AI-only) web flow, the JSON-LD
extractor is tried first and a usable result returns success with
`usedAI = false` without trying microdata or AI; otherwise microdata is
tried under the same test; otherwise, with AI enabled, the AI engine's
success yields `usedAI = true` and its failure the terminal
"Cannot parse recipe." error; with AI disabled the same terminal error
is returned without an AI attempt. -/
theorem C3_standard_flow (env : OrchestratorEnv) (url html : String) (forceAI : Option Bool)
    (hv : env.isVideo = false) (hf : env.fetchResult = some html)
    (hne : html.isEmpty = false)
    (hlik : isPageLikelyRecipe html env.indicators = true)
    (hstd : forceAI.getD env.alwaysUseAI = false) :
    (∀ d, env.jsonLd = some d → usableCandidate d = true →
      parseRecipeFromUrl env url forceAI =
        (.ok ⟨d, false⟩, ⟨false, true, true, false, false⟩)) ∧
    (containsStepsAndIngredients env.jsonLd = false →
      ∀ d, env.micro = some d → usableCandidate d = true →
        parseRecipeFromUrl env url forceAI =
          (.ok ⟨d, false⟩, ⟨false, true, true, true, false⟩)) ∧
    (containsStepsAndIngredients env.jsonLd = false →
      containsStepsAndIngredients env.micro = false →
      env.aiEnabled = true →
      (∀ d u, env.ai = .success d u →
        parseRecipeFromUrl env url forceAI =
          (.ok ⟨d, true⟩, ⟨false, true, true, true, true⟩)) ∧
      (∀ e c, env.ai = .failure e c →
        parseRecipeFromUrl env url forceAI =
          (.error "Cannot parse recipe.", ⟨false, true, true, true, true⟩))) ∧
    (containsStepsAndIngredients env.jsonLd = false →
      containsStepsAndIngredients env.micro = false →
      env.aiEnabled = false →
      parseRecipeFromUrl env url forceAI =
        (.error "Cannot parse recipe.", ⟨false, true, true, true, false⟩)) := by
  rw [parseRecipeFromUrl_web env url html forceAI hv hf hne hlik hstd]
  refine ⟨?_, ?_, ?_, ?_⟩
  · rintro d hj hu
    simp [jsonLdStage, hj, hu]
  · intro hjl d hmi hu
    cases hj : env.jsonLd with
    | none => simp [jsonLdStage, hj, microStage, hmi, hu]
    | some dj =>
      rw [hj] at hjl
      simp [containsStepsAndIngredients] at hjl
      simp [jsonLdStage, hj, hjl, microStage, hmi, hu]
  · intro hjl hml hai
    constructor
    · rintro d u hrai
      cases hj : env.jsonLd with
      | none =>
        cases hmi : env.micro with
        | none => simp [jsonLdStage, hj, microStage, hmi, aiFallbackStage, hai, hrai]
        | some dm =>
          rw [hmi] at hml
          simp [containsStepsAndIngredients] at hml
          simp [jsonLdStage, hj, microStage, hmi, hml, aiFallbackStage, hai, hrai]
      | some dj =>
        rw [hj] at hjl
        simp [containsStepsAndIngredients] at hjl
        cases hmi : env.micro with
        | none => simp [jsonLdStage, hj, hjl, microStage, hmi, aiFallbackStage, hai, hrai]
        | some dm =>
          rw [hmi] at hml
          simp [containsStepsAndIngredients] at hml
          simp [jsonLdStage, hj, hjl, microStage, hmi, hml, aiFallbackStage, hai, hrai]
    · rintro e c hrai
      cases hj : env.jsonLd with
      | none =>
        cases hmi : env.micro with
        | none => simp [jsonLdStage, hj, microStage, hmi, aiFallbackStage, hai, hrai]
        | some dm =>
          rw [hmi] at hml
          simp [containsStepsAndIngredients] at hml
          simp [jsonLdStage, hj, microStage, hmi, hml, aiFallbackStage, hai, hrai]
      | some dj =>
        rw [hj] at hjl
        simp [containsStepsAndIngredients] at hjl
        cases hmi : env.micro with
        | none => simp [jsonLdStage, hj, hjl, microStage, hmi, aiFallbackStage, hai, hrai]
        | some dm =>
          rw [hmi] at hml
          simp [containsStepsAndIngredients] at hml
          simp [jsonLdStage, hj, hjl, microStage, hmi, hml, aiFallbackStage, hai, hrai]
  · intro hjl hml hai
    cases hj : env.jsonLd with
    | none =>
      cases hmi : env.micro with
      | none => simp [jsonLdStage, hj, microStage, hmi, aiFallbackStage, hai]
      | some dm =>
        rw [hmi] at hml
        simp [containsStepsAndIngredients] at hml
        simp [jsonLdStage, hj, microStage, hmi, hml, aiFallbackStage, hai]
    | some dj =>
      rw [hj] at hjl
      simp [containsStepsAndIngredients] at hjl
      cases hmi : env.micro with
      | none => simp [jsonLdStage, hj, hjl, microStage, hmi, aiFallbackStage, hai]
      | some dm =>
        rw [hmi] at hml
        simp [containsStepsAndIngredients] at hml
        simp [jsonLdStage, hj, hjl, microStage, hmi, hml, aiFallbackStage, hai]

/-- Claim C3, witness: the AI-fallback success branch on `envC3`. -/
theorem C3_witness :
    parseRecipeFromUrl envC3 "https://example.com" none =
      (.ok ⟨recipeMetricOnly, true⟩, ⟨false, true, true, true, true⟩) :=
  ((C3_standard_flow envC3 "https://example.com" "a ld+json page" none rfl rfl (by decide)
      (by decide) rfl).2.2.1 rfl rfl rfl).1 recipeMetricOnly
    { inputTokens := 1, outputTokens := 2, totalTokens := 3 } rfl

/-- Claim C4: whenever AI-only mode is forced (explicitly or globally),
the structured extractors are never invoked on any path; and on the web
path with AI administratively disabled, the run fails with the AI-only
disabled error before any extractor or AI call. -/
theorem C4_ai_only_override (env : OrchestratorEnv) (url : String) (forceAI : Option Bool) :
    (forceAI.getD env.alwaysUseAI = true →
      (parseRecipeFromUrl env url forceAI).2.jsonLdCalled = false ∧
      (parseRecipeFromUrl env url forceAI).2.microCalled = false) ∧
    (∀ html, env.isVideo = false → env.fetchResult = some html → html.isEmpty = false →
      isPageLikelyRecipe html env.indicators = true →
      forceAI.getD env.alwaysUseAI = true → env.aiEnabled = false →
      parseRecipeFromUrl env url forceAI =
        (.error "AI-only import requested but AI is not enabled.",
          ⟨false, true, false, false, false⟩)) := by
  constructor
  · intro h
    unfold parseRecipeFromUrl
    cases hv : env.isVideo
    · cases hfr : env.fetchResult with
      | none => simp
      | some html =>
        by_cases hne : html.isEmpty
        · simp [hne]
        · by_cases hlik : isPageLikelyRecipe html env.indicators
          · cases hai : env.aiEnabled <;> cases hrai : env.ai <;>
              simp [hne, hlik, h, hai, hrai]
          · simp [hne, hlik]
    · cases hvp : env.videoParsingEnabled
      · simp
      · cases hvr : env.videoResult <;> simp [hvr]
  · intro html hv hfr hne hlik h hai
    simp [parseRecipeFromUrl, hv, hfr, hne, hlik, h, hai]

/-- Claim C4, witness: `envC4` forces AI-only mode with AI disabled. -/
theorem C4_witness :
    ((parseRecipeFromUrl envC4 "https://example.com" none).2.jsonLdCalled = false ∧
      (parseRecipeFromUrl envC4 "https://example.com" none).2.microCalled = false) ∧
    parseRecipeFromUrl envC4 "https://example.com" none =
      (.error "AI-only import requested but AI is not enabled.",
        ⟨false, true, false, false, false⟩) :=
  ⟨(C4_ai_only_override envC4 "https://example.com" none).1 rfl,
   (C4_ai_only_override envC4 "https://example.com" none).2 "a ld+json page" rfl rfl
     (by decide) (by decide) rfl rfl⟩

/-- Claim C5: with AI administratively disabled, both AI extraction
entry points return the AI_DISABLED failure with neither provider-handle
construction nor a network call performed. -/
theorem C5_ai_disabled_guard (env : EngineEnv) (html : String) (url : Option String)
    (allergies : Option (List String)) (files : List ImageImportFile)
    (h : env.aiEnabled = false) :
    extractRecipeWithAI env html url allergies =
      (.failure "AI features are disabled" .AI_DISABLED, ⟨false, false⟩) ∧
    extractRecipeFromImages env files allergies =
      (.failure "AI features are disabled" .AI_DISABLED, ⟨false, false⟩) := by
  constructor <;> simp [extractRecipeWithAI, extractRecipeFromImages, h]

/-- Claim C5, witness: the guard theorem applied to `envC5`. -/
theorem C5_witness :
    extractRecipeWithAI envC5 "" none none =
      (.failure "AI features are disabled" .AI_DISABLED, ⟨false, false⟩) ∧
    extractRecipeFromImages envC5 [] none =
      (.failure "AI features are disabled" .AI_DISABLED, ⟨false, false⟩) :=
  C5_ai_disabled_guard envC5 "" none none [] rfl

/-- Claim C6: a provider payload that is absent or has no keys yields
EMPTY_RESPONSE; a present payload lacking a truthy name or with any of
the four per-system ingredient/instruction arrays empty yields
VALIDATION_ERROR (never success), in both entry points. -/
theorem C6_validation_gate (env : EngineEnv) (html : String) (url : Option String)
    (allergies : Option (List String)) (files : List ImageImportFile)
    (out : Option RawRecipe) (usg : Usage)
    (hai : env.aiEnabled = true) (hm : env.modelsResult = .ok ())
    (hg : env.gen = .ok out usg) (hf : files ≠ []) :
    (out = none →
      (extractRecipeWithAI env html url allergies).1 =
        .failure "AI returned empty response" .EMPTY_RESPONSE ∧
      (extractRecipeFromImages env files allergies).1 =
        .failure "AI returned empty response" .EMPTY_RESPONSE) ∧
    (∀ raw, out = some raw → keyCount raw = 0 →
      (extractRecipeWithAI env html url allergies).1 =
        .failure "AI returned empty response" .EMPTY_RESPONSE ∧
      (extractRecipeFromImages env files allergies).1 =
        .failure "AI returned empty response" .EMPTY_RESPONSE) ∧
    (∀ raw, out = some raw → keyCount raw ≠ 0 →
      (nameTruthy raw = false ∨ ingMetric raw = [] ∨ ingUs raw = [] ∨
        insMetric raw = [] ∨ insUs raw = []) →
      (extractRecipeWithAI env html url allergies).1 =
        .failure "Recipe extraction failed - missing required fields" .VALIDATION_ERROR ∧
      (extractRecipeFromImages env files allergies).1 =
        .failure "Recipe extraction failed - missing required fields" .VALIDATION_ERROR) := by
  have hflen : (files.length == 0) = false := by
    simp [List.length_eq_zero]
    exact hf
  refine ⟨?_, ?_, ?_⟩
  · rintro rfl
    constructor <;>
      simp [extractRecipeWithAI, extractRecipeFromImages, runAIExtraction, hai, hm, hg, hflen]
  · rintro raw rfl hk
    constructor <;>
      simp [extractRecipeWithAI, extractRecipeFromImages, runAIExtraction, hai, hm, hg, hflen,
        hk]
  · rintro raw rfl hk hbad
    have hvr : validRecipe raw = false := (validRecipe_eq_false_iff raw).2 hbad
    constructor <;>
      simp [extractRecipeWithAI, extractRecipeFromImages, runAIExtraction, hai, hm, hg, hflen,
        hk, hvr]

/-- Claim C6, witness: a payload with an empty US ingredient array is
rejected with VALIDATION_ERROR by both entry points. -/
theorem C6_witness :
    (extractRecipeWithAI envC6 "" none none).1 =
      .failure "Recipe extraction failed - missing required fields" .VALIDATION_ERROR ∧
    (extractRecipeFromImages envC6 [sampleImageFile] none).1 =
      .failure "Recipe extraction failed - missing required fields" .VALIDATION_ERROR :=
  (C6_validation_gate envC6 "" none none [sampleImageFile] (some rawC6)
      { inputTokens := 0, outputTokens := 0, totalTokens := 0 } rfl rfl rfl (by decide)).2.2
    rawC6 rfl (by decide) (Or.inr (Or.inr (Or.inl rfl)))

/-- Claim C7: the recipe-likelihood check returns true exactly when a
schema indicator occurs case-insensitively in the page, or at least two
distinct content indicators do (for duplicate-free indicator lists);
and when it returns false the orchestrator fails with the "not a
recipe page" error before any extractor or AI call. -/
theorem C7_recipe_likelihood :
    (∀ html ind, ind.contentIndicators.Nodup →
      (isPageLikelyRecipe html ind = true ↔
        (∃ s ∈ ind.schemaIndicators, occursIn html s = true) ∨
        (∃ a b, a ∈ ind.contentIndicators ∧ b ∈ ind.contentIndicators ∧ a ≠ b ∧
          occursIn html a = true ∧ occursIn html b = true))) ∧
    (∀ env url forceAI html, env.isVideo = false → env.fetchResult = some html →
      html.isEmpty = false → isPageLikelyRecipe html env.indicators = false →
      parseRecipeFromUrl env url forceAI =
        (.error "Page does not appear to contain a recipe.",
          ⟨false, true, false, false, false⟩)) := by
  constructor
  · intro html ind hnd
    unfold isPageLikelyRecipe
    rw [Bool.or_eq_true, List.any_eq_true, decide_eq_true_iff,
      two_le_length_filter_iff _ _ hnd]
    unfold occursIn
    exact Iff.rfl
  · intro env url forceAI html hv hfr hne hlik
    simp [parseRecipeFromUrl, hv, hfr, hne, hlik]

/-- Claim C7, witness: the characterization at a concrete page and
indicator configuration, and the fail-fast branch on `envC7`. -/
theorem C7_witness :
    (isPageLikelyRecipe "how to cook: ingredient list and instruction steps"
        { schemaIndicators := ["ld+json"],
          contentIndicators := ["ingredient", "instruction"] } = true ↔
      (∃ s ∈ ["ld+json"],
        occursIn "how to cook: ingredient list and instruction steps" s = true) ∨
      (∃ a b, a ∈ ["ingredient", "instruction"] ∧ b ∈ ["ingredient", "instruction"] ∧
        a ≠ b ∧ occursIn "how to cook: ingredient list and instruction steps" a = true ∧
        occursIn "how to cook: ingredient list and instruction steps" b = true)) ∧
    parseRecipeFromUrl envC7 "https://example.com" none =
      (.error "Page does not appear to contain a recipe.",
        ⟨false, true, false, false, false⟩) :=
  ⟨C7_recipe_likelihood.1 "how to cook: ingredient list and instruction steps"
      { schemaIndicators := ["ld+json"], contentIndicators := ["ingredient", "instruction"] }
      (by decide),
   C7_recipe_likelihood.2 envC7 "https://example.com" none "plain article text" rfl rfl
     (by decide) (by decide)⟩

/-- Claim C8: the local-endpoint normalization of the provider registry
(strip trailing slashes, then append "/v1" when absent) is idempotent. -/
theorem C8_endpoint_normalization_idempotent (s : String) :
    normalizeLocalEndpoint (normalizeLocalEndpoint s) = normalizeLocalEndpoint s := by
  unfold normalizeLocalEndpoint
  exact congrArg String.mk (normalizeEndpointL_idem s.data)

/-- Claim C9: a failed or non-success introspection call makes the
capability probe return the static defaults with `supportsMaxTokens`
false (and it cannot raise); on success, vision support is inferred true
exactly when the reported families include "clip" or the lowercased
model name contains "llava" or "vision". -/
theorem C9_ollama_probe (endpoint model : String) (outcome : FetchOutcome) :
    (outcome = .threw →
      queryOllamaCapabilities endpoint model outcome capabilityDefaults =
        { capabilityDefaults with supportsMaxTokens := false }) ∧
    (∀ d, outcome = .status false d →
      queryOllamaCapabilities endpoint model outcome capabilityDefaults =
        { capabilityDefaults with supportsMaxTokens := false }) ∧
    (∀ d, outcome = .status true d →
      (queryOllamaCapabilities endpoint model outcome capabilityDefaults).supportsVision =
        (((d.getD { families := none }).families.getD []).contains "clip" ||
          strIncludes (lowerStr model) "llava" ||
          strIncludes (lowerStr model) "vision")) ∧
    (!endpoint.isEmpty → !model.isEmpty →
      getModelCapabilities .ollama (some endpoint) (some model) outcome =
        queryOllamaCapabilities endpoint model outcome capabilityDefaults) := by
  refine ⟨?_, ?_, ?_, ?_⟩
  · rintro rfl; rfl
  · rintro d rfl; rfl
  · rintro d rfl; rfl
  · intro he hm
    simp [getModelCapabilities, optTruthy, he, hm]

/-- Claim C9, witness: a timed-out probe for `llama3`, a successful
probe for `llava:13b`, and the prober routing. -/
theorem C9_witness :
    queryOllamaCapabilities "http://localhost:11434" "llama3" .threw capabilityDefaults =
        { capabilityDefaults with supportsMaxTokens := false } ∧
    (queryOllamaCapabilities "http://localhost:11434" "llava:13b"
        (.status true (some { families := some ["llama"] }))
        capabilityDefaults).supportsVision =
      ((["llama"].contains "clip") || strIncludes (lowerStr "llava:13b") "llava" ||
        strIncludes (lowerStr "llava:13b") "vision") ∧
    getModelCapabilities .ollama (some "http://localhost:11434") (some "llama3") .threw =
      queryOllamaCapabilities "http://localhost:11434" "llama3" .threw capabilityDefaults :=
  ⟨(C9_ollama_probe "http://localhost:11434" "llama3" .threw).1 rfl,
   by
    have h := (C9_ollama_probe "http://localhost:11434" "llava:13b"
      (.status true (some { families := some ["llama"] }))).2.2.1
      (some { families := some ["llama"] }) rfl
    simpa using h,
   (C9_ollama_probe "http://localhost:11434" "llama3" .threw).2.2.2 (by decide) (by decide)⟩

/-- Claim C10: the registry fails with a configuration error whenever
the selected provider kind's required credential or endpoint is missing,
and otherwise returns both handles, binding the vision handle to the
text model when no vision-model name is configured. -/
theorem C10_registry_contract (config : ProviderConfig) :
    (requiredConfigMissing config = true →
      ∃ msg, createModelsFromConfig config = .error msg) ∧
    (requiredConfigMissing config = false →
      ∃ mc, createModelsFromConfig config = .ok mc ∧
        (config.visionModel = none → mc.visionModel = mc.model)) := by
  constructor
  · intro h
    cases hp : config.provider <;>
      simp_all [createModelsFromConfig, requiredConfigMissing, hp]
  · intro h
    cases hp : config.provider <;>
      simp_all [createModelsFromConfig, requiredConfigMissing, hp, orModel]

/-- Claim C10, witness: a missing OpenAI key errors; a configured
LM Studio endpoint yields handles with the vision fallback. -/
theorem C10_witness :
    (requiredConfigMissing
        { provider := .openai, model := "gpt-4o", visionModel := none,
          endpoint := none, apiKey := none } = true ∧
      ∃ msg, createModelsFromConfig
        { provider := .openai, model := "gpt-4o", visionModel := none,
          endpoint := none, apiKey := none } = .error msg) ∧
    (requiredConfigMissing
        { provider := .lmStudio, model := "qwen", visionModel := none,
          endpoint := some "http://localhost:1234/", apiKey := none } = false ∧
      ∃ mc, createModelsFromConfig
        { provider := .lmStudio, model := "qwen", visionModel := none,
          endpoint := some "http://localhost:1234/", apiKey := none } = .ok mc ∧
        ((none : Option String) = none → mc.visionModel = mc.model)) :=
  ⟨⟨by decide, (C10_registry_contract _).1 (by decide)⟩,
   ⟨by decide, (C10_registry_contract _).2 (by decide)⟩⟩
